import Mathlib

/-!
Verification of the PDF retrieval-and-extraction core of `tools.py`
(`PDFProcessor.download_pdf`, `extract_text_pypdf2`, `extract_text_pdfplumber`,
`process_pdf_from_url`, `download_and_parse_pdf`, `get_pdf_metadata`).

The network, the two PDF backends, and the only realistic in-`try` raise sites
are modelled as an explicit environment (`Env`); every embedded function is a
pure, executable Lean function of that environment.  Bytes are `List Nat`;
machine behaviour plays no role.  Python building blocks used by the source
(`str.count`, `str.join`, `str(int)` rendering, `urllib.parse.urlparse`) are
embedded as executable definitions below.
-/

namespace Tools

/-- Decimal digit character, as produced by Python `str(int)` rendering
(used by the f-strings in `tools.py`). -/
def digitChar (n : Nat) : Char :=
  if n = 0 then '0' else if n = 1 then '1' else if n = 2 then '2'
  else if n = 3 then '3' else if n = 4 then '4' else if n = 5 then '5'
  else if n = 6 then '6' else if n = 7 then '7' else if n = 8 then '8'
  else if n = 9 then '9' else '*'

/-- Fuelled digit expansion (structural recursion so that concrete digit
strings reduce inside the kernel; `fuel > n` always suffices). -/
def natDigitsAux : Nat → Nat → List Char
  | 0, _ => []
  | fuel + 1, n =>
    if n < 10 then [digitChar n]
    else natDigitsAux fuel (n / 10) ++ [digitChar (n % 10)]

/-- Decimal digit list of a natural number, most significant first
(the character sequence Python's `str(int)` produces). -/
def natDigits (n : Nat) : List Char := natDigitsAux (n + 1) n

/-- Python `str(int)`: decimal rendering of a natural number. -/
def natDecimal (n : Nat) : String := ⟨natDigits n⟩

/-- The characters Python `str.strip()` removes (ASCII whitespace; the
source only ever meets ASCII here). -/
def isPySpace (c : Char) : Bool :=
  c = ' ' || c = '\t' || c = '\n' || c = '\r' || c = '\x0b' || c = '\x0c'

/-- Python `s.strip()`: remove leading and trailing whitespace. -/
def pyStrip (s : String) : String :=
  ⟨((s.data.dropWhile isPySpace).reverse.dropWhile isPySpace).reverse⟩

/-- Python `s.lower()` (ASCII case folding, all the source needs). -/
def pyLower (s : String) : String := ⟨s.data.map Char.toLower⟩

/-- Python `sep.join(parts)`. -/
def pyJoin (sep : String) : List String → String
  | [] => ""
  | [s] => s
  | s :: t :: rest => s ++ sep ++ pyJoin sep (t :: rest)

/-- Fuelled scan for Python `str.count` (structural recursion so that
concrete counts reduce inside the kernel; fuel larger than the list length
always suffices): number of non-overlapping occurrences of `pat`, scanning
left to right and skipping past each match (only meaningful for a nonempty
`pat`; `pyCount` handles the empty needle separately). -/
def pyCountFuel (pat : List Char) : Nat → List Char → Nat
  | 0, _ => 0
  | fuel + 1, l =>
    match l with
    | [] => 0
    | c :: t =>
      if pat ≠ [] ∧ pat.isPrefixOf (c :: t) then
        1 + pyCountFuel pat fuel (List.drop pat.length (c :: t))
      else
        pyCountFuel pat fuel t

/-- The scan with always-sufficient fuel. -/
def pyCountAux (pat l : List Char) : Nat := pyCountFuel pat (l.length + 1) l

/-- Python `s.count(pat)`: non-overlapping occurrences of `pat` in `s`
(`len(s)+1` for the empty needle, matching Python). -/
def pyCount (pat s : String) : Nat :=
  if pat.data = [] then s.data.length + 1 else pyCountAux pat.data s.data

/-! ## Model of `urllib.parse.urlparse`, restricted to the `scheme` and
`netloc` fields consulted by `download_pdf`.  Modern CPython first removes
ASCII tab/CR/LF from the url; the scheme is the part before the first `:`
when it is a letter followed by letters, digits, `+`, `-`, `.`; the netloc
follows `//` up to the next `/`, `?` or `#`. -/

/-- Split a character list at the first colon, if any. -/
def splitAtColon : List Char → Option (List Char × List Char)
  | [] => none
  | c :: rest =>
    if c = ':' then some ([], rest)
    else (splitAtColon rest).map fun p => (c :: p.1, p.2)

/-- Characters allowed after the first letter of a URI scheme. -/
def isSchemeTailChar (c : Char) : Bool :=
  c.isAlphanum || c = '+' || c = '-' || c = '.'

/-- Parsed scheme and network location of a URL. -/
structure ParsedUrl where
  scheme : String
  netloc : String
deriving DecidableEq

/-- Model of `urllib.parse.urlparse` (fields `scheme`, `netloc` only). -/
def urlparse (url : String) : ParsedUrl :=
  let cs := url.data.filter fun c => !(c = '\t' || c = '\r' || c = '\n')
  let p :=
    match splitAtColon cs with
    | some (pre, post) =>
      match pre with
      | [] => (([] : List Char), cs)
      | c :: tail => if c.isAlpha && tail.all isSchemeTailChar then (pre, post) else ([], cs)
    | none => (([] : List Char), cs)
  let netloc :=
    match p.2 with
    | '/' :: '/' :: r => r.takeWhile fun c => !(c = '/' || c = '?' || c = '#')
    | _ => ([] : List Char)
  ⟨⟨p.1⟩, ⟨netloc⟩⟩

/-! ## The environment: network responses, PDF backends, and fault injection. -/

/-- Outcome of the single streaming GET request issued by `download_pdf`:
either a response body (after `raise_for_status` passed), or a
`requests.exceptions.RequestException` (connection error, timeout,
DNS failure, non-2xx status) carrying its message. -/
inductive GetOutcome where
  | success (body : List Nat)
  | failure (msg : String)

/-- Outcome of the HEAD request issued by `get_pdf_metadata`: the response
headers (each defaulted to `""` when absent, as `headers.get(..., '')` does)
and status code, or a raised exception's message. -/
inductive HeadOutcome where
  | success (content_type content_length last_modified : String) (status_code : Nat)
  | failure (msg : String)

/-- What one page of an opened document gives back when the loop body calls
`page.extract_text()`: an exception, Python `None`, or a string. -/
inductive PageRead where
  | raise (msg : String)
  | null
  | text (s : String)
deriving DecidableEq

/-- How each PDF library reads the downloaded bytes: either the document
opens into a list of pages, or opening raises (malformed document). -/
structure PdfBackend where
  pypdf2_doc : List Nat → Except String (List PageRead)
  pdfplumber_doc : List Nat → Except String (List PageRead)

/-- The ambient environment of one pipeline invocation.  `pipeline_fault`
models an exception raised inside the `try` of `process_pdf_from_url` at the
extraction-dispatch site (e.g. a non-string `method` whose `.lower()`
raises), before the result record is updated; `tool_fault` models an
exception raised at the top of the `try` of `download_and_parse_pdf`
(before the url check).  `none` means normal operation. -/
structure Env where
  get : GetOutcome
  head : HeadOutcome
  backend : PdfBackend
  pipeline_fault : Option String
  tool_fault : Option String

/-- Observable side effects of one invocation: how many HTTP GET requests
were issued and how many extraction runs were started. -/
structure Trace where
  get_requests : Nat
  extract_calls : Nat
deriving DecidableEq

/-! ## The embedded functions of `tools.py`. -/

/-- Embedding of `PDFProcessor.download_pdf`: validate the url with `urlparse` (no scheme
or no netloc means return `None` with no request issued), otherwise issue the
single GET; any `RequestException` is caught and turned into `None`.  The
second component counts HTTP GET requests actually issued. -/
def download_pdf (env : Env) (url : String) : Option (List Nat) × Nat :=
  let p := urlparse url
  if p.scheme = "" ∨ p.netloc = "" then (none, 0)
  else
    match env.get with
    | .success body => (some body, 1)
    | .failure _ => (none, 1)

/-- The page-boundary marker `f"\n--- Page {page_num} ---\n"`. -/
def pageMarker (n : Nat) : String := "\n--- Page " ++ natDecimal n ++ " ---\n"

/-- Loop body of `extract_text_pypdf2` over `enumerate(pdf_reader.pages, 1)`:
a raising page is skipped by the inner `except` (so is a `None` page, whose
`.strip()` raises `AttributeError` into the same handler); a page whose text
is whitespace-only (`if page_text.strip():` falsy) appends nothing; otherwise
the marker and the page text are appended. -/
def pypdf2PageBlocks : Nat → List PageRead → List String
  | _, [] => []
  | n, .raise _ :: rest => pypdf2PageBlocks (n + 1) rest
  | n, .null :: rest => pypdf2PageBlocks (n + 1) rest
  | n, .text t :: rest =>
    if pyStrip t = "" then pypdf2PageBlocks (n + 1) rest
    else pageMarker n :: t :: pypdf2PageBlocks (n + 1) rest

/-- Embedding of `PDFProcessor.extract_text_pypdf2`: if `PyPDF2.PdfReader` raises on the
bytes the outer `except` returns `""`; otherwise `'\n'.join` of the collected
blocks. -/
def extract_text_pypdf2 (doc : Except String (List PageRead)) : String :=
  match doc with
  | .error _ => ""
  | .ok pages => pyJoin "\n" (pypdf2PageBlocks 1 pages)

/-- Loop body of `extract_text_pdfplumber`: same skipping, except that the
guard is `if page_text and page_text.strip():`, so a `None` page is skipped
by falsiness rather than by an exception. -/
def pdfplumberPageBlocks : Nat → List PageRead → List String
  | _, [] => []
  | n, .raise _ :: rest => pdfplumberPageBlocks (n + 1) rest
  | n, .null :: rest => pdfplumberPageBlocks (n + 1) rest
  | n, .text t :: rest =>
    if t = "" ∨ pyStrip t = "" then pdfplumberPageBlocks (n + 1) rest
    else pageMarker n :: t :: pdfplumberPageBlocks (n + 1) rest

/-- Embedding of `PDFProcessor.extract_text_pdfplumber`: a raising `pdfplumber.open` makes
the outer `except` return `""`; otherwise `'\n'.join` of the blocks. -/
def extract_text_pdfplumber (doc : Except String (List PageRead)) : String :=
  match doc with
  | .error _ => ""
  | .ok pages => pyJoin "\n" (pdfplumberPageBlocks 1 pages)

/-- The metadata dictionary of a `PipelineResult`. -/
structure Metadata where
  url : String
  method : String
  pages_processed : Nat
  content_length : Nat
deriving DecidableEq

/-- The result envelope built by `process_pdf_from_url`. -/
structure PipelineResult where
  success : Bool
  text : String
  error : Option String
  metadata : Metadata
deriving DecidableEq

/-- The initial `result` dictionary of `process_pdf_from_url`. -/
def initResult (url method : String) : PipelineResult :=
  { success := false, text := "", error := none,
    metadata := { url := url, method := method, pages_processed := 0, content_length := 0 } }

/-- Embedding of `PDFProcessor.process_pdf_from_url`.  Here `if not pdf_content:` is falsy both
for `None` and for an empty byte string, so both yield the download-failure
envelope.  The strategy dispatch is `if method.lower() == "pdfplumber":` with
`extract_text_pypdf2` as the `else` branch.  On success the metadata gets
`content_length = len(text)` and `pages_processed = text.count("--- Page")`.
A fault injected at the dispatch site lands in the `except Exception` branch,
which stamps the still-initial record with the unexpected-error message. -/
def process_pdf_from_url (env : Env) (url method : String) : PipelineResult × Trace :=
  let r0 := initResult url method
  let dl := download_pdf env url
  match dl.1 with
  | none => ({ r0 with error := some "Failed to download PDF" }, ⟨dl.2, 0⟩)
  | some content =>
    if content = [] then
      ({ r0 with error := some "Failed to download PDF" }, ⟨dl.2, 0⟩)
    else
      match env.pipeline_fault with
      | some m =>
        ({ r0 with error := some ("Unexpected error processing PDF: " ++ m) }, ⟨dl.2, 0⟩)
      | none =>
        let extracted :=
          if pyLower method = "pdfplumber" then
            extract_text_pdfplumber (env.backend.pdfplumber_doc content)
          else
            extract_text_pypdf2 (env.backend.pypdf2_doc content)
        if pyStrip extracted = "" then
          ({ r0 with error := some "No text could be extracted from PDF" }, ⟨dl.2, 1⟩)
        else
          ({ success := true, text := extracted, error := none,
             metadata := { url := url, method := method,
                           pages_processed := pyCount "--- Page" extracted,
                           content_length := extracted.length } }, ⟨dl.2, 1⟩)

/-- The f-string header block of `download_and_parse_pdf`'s success output. -/
def formatHeader (m : Metadata) : String :=
  "\n=== PDF Processing Results ===\nSource URL: " ++ m.url ++
    "\nPages Processed: " ++ natDecimal m.pages_processed ++
    "\nContent Length: " ++ natDecimal m.content_length ++
    " characters\nExtraction Method: " ++ m.method ++
    "\n=== Text Content ===\n\n"

/-- Python interpolation of `result['error']` into the failure f-string
(`None` prints as `"None"`). -/
def errorText : Option String → String
  | some e => e
  | none => "None"

/-- Embedding of `download_and_parse_pdf`: a fault at the top of the `try` lands in the
outer `except Exception`; `if not url or not isinstance(url, str):` rejects
the empty string up front; an `extraction_method` outside the two recognized
names is replaced by `"pdfplumber"`; then the pipeline result is formatted
as the header plus text on success or the single-line failure string. -/
def download_and_parse_pdf (env : Env) (url : String)
    (extraction_method : String := "pdfplumber") : String × Trace :=
  match env.tool_fault with
  | some m => ("Unexpected error in download_and_parse_pdf: " ++ m, ⟨0, 0⟩)
  | none =>
    if url = "" then ("Error: Invalid URL provided", ⟨0, 0⟩)
    else
      let em :=
        if ¬(extraction_method = "pdfplumber" ∨ extraction_method = "pypdf2") then "pdfplumber"
        else extraction_method
      let pr := process_pdf_from_url env url em
      if pr.1.success then (formatHeader pr.1.metadata ++ pr.1.text, pr.2)
      else ("Failed to process PDF: " ++ errorText pr.1.error, pr.2)

/-- The dictionary returned by `get_pdf_metadata`: the probe record on
success, or the `{"error": ..., "url": ...}` record when anything raises. -/
inductive PdfMetadata where
  | probe (content_type content_length last_modified : String) (status_code : Nat) (url : String)
  | failure (error url : String)
deriving DecidableEq

/-- Embedding of `get_pdf_metadata`: one HEAD request; `raise_for_status` failures and
every other exception are converted to the error record. -/
def get_pdf_metadata (env : Env) (url : String) : PdfMetadata :=
  match env.head with
  | .success ct cl lm sc => .probe ct cl lm sc url
  | .failure m => .failure m url

/-! ## Spec-side vocabulary: expected extraction output, contributing-page
counts, the failure envelope, and a parser for the formatted report
(modelled from the spec, which states the round-trip property; the source
has the formatter only). -/

/-- The page blocks the spec describes for consecutive pages
`start, start + 1, ...`: each page's marker followed by its text. -/
def specMarkedBlocks : Nat → List String → List String
  | _, [] => []
  | n, t :: ts => pageMarker n :: t :: specMarkedBlocks (n + 1) ts

/-- Number of pages that contribute a marker under the pypdf2 guard
(`page_text.strip()` truthy). -/
def pypdf2Contrib : List PageRead → Nat
  | [] => 0
  | .text t :: rest => (if pyStrip t = "" then 0 else 1) + pypdf2Contrib rest
  | _ :: rest => pypdf2Contrib rest

/-- Number of pages that contribute a marker under the pdfplumber guard
(`page_text and page_text.strip()` truthy). -/
def pdfplumberContrib : List PageRead → Nat
  | [] => 0
  | .text t :: rest => (if t = "" ∨ pyStrip t = "" then 0 else 1) + pdfplumberContrib rest
  | _ :: rest => pdfplumberContrib rest

/-- The failure envelope with the given error message and untouched
metadata counters. -/
def failureResult (url method err : String) : PipelineResult :=
  { success := false, text := "", error := some err,
    metadata := { url := url, method := method, pages_processed := 0, content_length := 0 } }

/-- Consume an expected literal from the front of a character list. -/
def dropLiteral (lit s : List Char) : Option (List Char) :=
  if lit.isPrefixOf s then some (s.drop lit.length) else none

/-- Split off everything before the first newline; `none` when no
newline remains. -/
def takeLine : List Char → Option (List Char × List Char)
  | [] => none
  | c :: rest =>
    if c = '\n' then some ([], rest)
    else (takeLine rest).map fun p => (c :: p.1, p.2)

/-- Decimal value of a digit list (Horner scheme). -/
def decDigitsVal : Nat → List Char → Nat
  | acc, [] => acc
  | acc, c :: rest => decDigitsVal (acc * 10 + (c.toNat - 48)) rest

/-- Parse a nonempty all-digit character list as a natural number. -/
def decToNat (s : List Char) : Option Nat :=
  if s ≠ [] ∧ s.all Char.isDigit then some (decDigitsVal 0 s) else none

/-- Remove an expected literal from the end of a character list. -/
def stripSuffix (suf s : List Char) : Option (List Char) :=
  if suf.isSuffixOf s then some (s.take (s.length - suf.length)) else none

/-- The fields recovered from a formatted report. -/
structure ReportFields where
  url : String
  pages_processed : Nat
  content_length : Nat
  method : String
  content : String
deriving DecidableEq

/-- Modelled from the spec: parse the header fields and the content section
back out of the human-readable report emitted by `download_and_parse_pdf`
(the source defines only the formatter; the spec states the round-trip). -/
def parseReport (report : String) : Option ReportFields :=
  match dropLiteral ("\n=== PDF Processing Results ===\nSource URL: ").data report.data with
  | none => none
  | some s1 =>
    match takeLine s1 with
    | none => none
    | some p1 =>
      match dropLiteral ("Pages Processed: ").data p1.2 with
      | none => none
      | some s2 =>
        match takeLine s2 with
        | none => none
        | some p2 =>
          match decToNat p2.1 with
          | none => none
          | some pages =>
            match dropLiteral ("Content Length: ").data p2.2 with
            | none => none
            | some s3 =>
              match takeLine s3 with
              | none => none
              | some p3 =>
                match stripSuffix (" characters").data p3.1 with
                | none => none
                | some lenDigits =>
                  match decToNat lenDigits with
                  | none => none
                  | some len =>
                    match dropLiteral ("Extraction Method: ").data p3.2 with
                    | none => none
                    | some s4 =>
                      match takeLine s4 with
                      | none => none
                      | some p4 =>
                        match dropLiteral ("=== Text Content ===\n\n").data p4.2 with
                        | none => none
                        | some rest =>
                          some ⟨⟨p1.1⟩, pages, len, ⟨p4.1⟩, ⟨rest⟩⟩

/-! ## Helper lemmas: prefix scanning, decimal digits, parsing. -/

theorem isPrefixOf_append_self : ∀ l r : List Char, l.isPrefixOf (l ++ r) = true := by
  intro l r
  induction l with
  | nil => simp [List.isPrefixOf]
  | cons c t ih => simp [List.isPrefixOf, ih]

theorem isPrefixOf_length_le :
    ∀ l s : List Char, l.isPrefixOf s = true → l.length ≤ s.length := by
  intro l
  induction l with
  | nil => simp
  | cons c t ih =>
    intro s h
    cases s with
    | nil => simp [List.isPrefixOf] at h
    | cons b bs =>
      simp only [List.isPrefixOf, Bool.and_eq_true] at h
      simpa using Nat.succ_le_succ (ih bs h.2)

theorem isPrefixOf_append_newline :
    ∀ (pat u v : List Char), '\n' ∉ pat →
      pat.isPrefixOf (u ++ '\n' :: v) = pat.isPrefixOf u := by
  intro pat
  induction pat with
  | nil => intro u v _; simp
  | cons p ps ih =>
    intro u v h
    cases u with
    | nil =>
      have hp : ¬(p = '\n') := fun hc => h (by simp [hc])
      simp [List.isPrefixOf, hp]
    | cons a us =>
      have hps : '\n' ∉ ps := fun hc => h (by simp [hc])
      simp [List.isPrefixOf, ih us v hps]

theorem dropLiteral_append (l r : List Char) : dropLiteral l (l ++ r) = some r := by
  simp [dropLiteral, isPrefixOf_append_self, List.drop_left]

theorem takeLine_append :
    ∀ (xs rest : List Char), '\n' ∉ xs → takeLine (xs ++ '\n' :: rest) = some (xs, rest) := by
  intro xs
  induction xs with
  | nil => intro rest _; simp [takeLine]
  | cons c t ih =>
    intro rest h
    have hc : ¬(c = '\n') := fun hc => h (by simp [hc])
    have ht : '\n' ∉ t := fun hc => h (by simp [hc])
    simp [takeLine, hc, ih rest ht]

theorem isSuffixOf_append_self (l r : List Char) : l.isSuffixOf (r ++ l) = true := by
  simp [List.isSuffixOf, isPrefixOf_append_self]

theorem stripSuffix_append (suf xs : List Char) : stripSuffix suf (xs ++ suf) = some xs := by
  have hlen : (xs ++ suf).length - suf.length = xs.length := by
    simp [List.length_append]
  simp [stripSuffix, isSuffixOf_append_self, hlen, List.take_left]

theorem digitChar_isDigit {m : Nat} (h : m < 10) : (digitChar m).isDigit = true := by
  interval_cases m <;> decide

theorem digitChar_val {m : Nat} (h : m < 10) : (digitChar m).toNat - 48 = m := by
  interval_cases m <;> decide

theorem isDigit_ne {c d : Char} (hc : c.isDigit = true) (hd : d.isDigit = false) : c ≠ d := by
  intro h; rw [h] at hc; rw [hc] at hd; cases hd

theorem natDigitsAux_succ (fuel n : Nat) :
    natDigitsAux (fuel + 1) n =
      if n < 10 then [digitChar n]
      else natDigitsAux fuel (n / 10) ++ [digitChar (n % 10)] := rfl

theorem natDigitsAux_all_digit :
    ∀ (fuel n : Nat), n < fuel → ∀ c ∈ natDigitsAux fuel n, c.isDigit = true := by
  intro fuel
  induction fuel with
  | zero => intro n h; exact absurd h (Nat.not_lt_zero n)
  | succ f ih =>
    intro n h c hc
    rw [natDigitsAux_succ] at hc
    by_cases h10 : n < 10
    · rw [if_pos h10] at hc
      simp only [List.mem_singleton] at hc
      subst hc; exact digitChar_isDigit h10
    · rw [if_neg h10] at hc
      have hdiv : n / 10 < n := Nat.div_lt_self (by omega) (by omega)
      rcases List.mem_append.mp hc with h1 | h2
      · exact ih (n / 10) (by omega) c h1
      · simp only [List.mem_singleton] at h2
        subst h2; exact digitChar_isDigit (Nat.mod_lt _ (by omega))

theorem natDigits_all_digit : ∀ n, ∀ c ∈ natDigits n, c.isDigit = true :=
  fun n => natDigitsAux_all_digit (n + 1) n (Nat.lt_succ_self n)

theorem natDigits_ne_nil : ∀ n, natDigits n ≠ [] := by
  intro n
  rw [natDigits, natDigitsAux_succ]
  by_cases h : n < 10
  · simp [if_pos h]
  · simp [if_neg h]

theorem decDigitsVal_nil (acc : Nat) : decDigitsVal acc [] = acc := rfl

theorem decDigitsVal_cons (acc : Nat) (c : Char) (rest : List Char) :
    decDigitsVal acc (c :: rest) = decDigitsVal (acc * 10 + (c.toNat - 48)) rest := rfl

theorem decDigitsVal_append :
    ∀ (xs ys : List Char) (acc : Nat),
      decDigitsVal acc (xs ++ ys) = decDigitsVal (decDigitsVal acc xs) ys := by
  intro xs
  induction xs with
  | nil => intro ys acc; rfl
  | cons c t ih =>
    intro ys acc
    rw [List.cons_append, decDigitsVal_cons, decDigitsVal_cons]
    exact ih ys _

theorem decDigitsVal_natDigitsAux :
    ∀ (fuel n : Nat), n < fuel → decDigitsVal 0 (natDigitsAux fuel n) = n := by
  intro fuel
  induction fuel with
  | zero => intro n h; exact absurd h (Nat.not_lt_zero n)
  | succ f ih =>
    intro n h
    rw [natDigitsAux_succ]
    by_cases h10 : n < 10
    · rw [if_pos h10, decDigitsVal_cons, decDigitsVal_nil]
      simpa using digitChar_val h10
    · rw [if_neg h10]
      have hdiv : n / 10 < n := Nat.div_lt_self (by omega) (by omega)
      rw [decDigitsVal_append, ih (n / 10) (by omega)]
      rw [decDigitsVal_cons, decDigitsVal_nil]
      rw [digitChar_val (Nat.mod_lt n (by omega))]
      omega

theorem decDigitsVal_natDigits : ∀ n, decDigitsVal 0 (natDigits n) = n :=
  fun n => decDigitsVal_natDigitsAux (n + 1) n (Nat.lt_succ_self n)

theorem decToNat_natDigits (n : Nat) : decToNat (natDigits n) = some n := by
  have h1 : natDigits n ≠ [] := natDigits_ne_nil n
  have h2 : (natDigits n).all Char.isDigit = true := by
    rw [List.all_eq_true]; intro c hc; exact natDigits_all_digit n c hc
  simp only [decToNat, if_pos (And.intro h1 h2), decDigitsVal_natDigits]

/-! ## Counting occurrences of `"--- Page"`.  The key fact for the
pages-processed bookkeeping: in the joined output, the needle occurs once
inside every marker and — when no page text contains it — nowhere else. -/

theorem pyCountFuel_congr (pat : List Char) :
    ∀ (f1 f2 : Nat) (l : List Char), l.length < f1 → l.length < f2 →
      pyCountFuel pat f1 l = pyCountFuel pat f2 l := by
  intro f1
  induction f1 with
  | zero => intro f2 l h1 _; exact absurd h1 (Nat.not_lt_zero _)
  | succ g ih =>
    intro f2 l h1 h2
    cases f2 with
    | zero => exact absurd h2 (Nat.not_lt_zero _)
    | succ m =>
      cases l with
      | nil => rfl
      | cons c t =>
        show pyCountFuel pat (g + 1) (c :: t) = pyCountFuel pat (m + 1) (c :: t)
        rw [pyCountFuel, pyCountFuel]
        by_cases h : pat ≠ [] ∧ pat.isPrefixOf (c :: t)
        · rw [if_pos h, if_pos h]
          have hp : 0 < pat.length := List.length_pos.mpr h.1
          have hd : (List.drop pat.length (c :: t)).length < g := by
            rw [List.length_drop]
            simp only [List.length_cons] at h1 ⊢
            omega
          have hd2 : (List.drop pat.length (c :: t)).length < m := by
            rw [List.length_drop]
            simp only [List.length_cons] at h2 ⊢
            omega
          rw [ih m _ hd hd2]
        · rw [if_neg h, if_neg h]
          have ht1 : t.length < g := by simp only [List.length_cons] at h1; omega
          have ht2 : t.length < m := by simp only [List.length_cons] at h2; omega
          exact ih m t ht1 ht2

theorem pyCountAux_nil (pat : List Char) : pyCountAux pat [] = 0 := rfl

theorem pyCountAux_cons (pat : List Char) (c : Char) (t : List Char) :
    pyCountAux pat (c :: t) =
      if pat ≠ [] ∧ pat.isPrefixOf (c :: t) then
        1 + pyCountAux pat (List.drop pat.length (c :: t))
      else pyCountAux pat t := by
  show pyCountFuel pat ((c :: t).length + 1) (c :: t) = _
  rw [show (c :: t).length + 1 = t.length + 2 from by simp]
  rw [pyCountFuel]
  by_cases h : pat ≠ [] ∧ pat.isPrefixOf (c :: t)
  · rw [if_pos h, if_pos h]
    have hp : 0 < pat.length := List.length_pos.mpr h.1
    have hlt : (List.drop pat.length (c :: t)).length < t.length + 1 := by
      rw [List.length_drop]; simp; omega
    rw [pyCountFuel_congr pat (t.length + 1) ((List.drop pat.length (c :: t)).length + 1)
      (List.drop pat.length (c :: t)) hlt (Nat.lt_succ_self _)]
    rfl
  · rw [if_neg h, if_neg h]
    rfl

theorem pyCountAux_split (pat : List Char) (hne : pat ≠ []) (hnl : '\n' ∉ pat) :
    ∀ (k : Nat) (xs : List Char), xs.length ≤ k → ∀ ys : List Char,
      pyCountAux pat (xs ++ '\n' :: ys) = pyCountAux pat xs + pyCountAux pat ys := by
  have hhd : ∀ ys : List Char, pat.isPrefixOf ('\n' :: ys) = false := by
    intro ys
    cases pat with
    | nil => exact absurd rfl hne
    | cons p ps =>
      have hp : ¬(p = '\n') := fun hc => hnl (by simp [hc])
      simp [List.isPrefixOf, hp]
  intro k
  induction k with
  | zero =>
    intro xs hlen ys
    have hx : xs = [] := List.eq_nil_of_length_eq_zero (Nat.le_zero.mp hlen)
    subst hx
    rw [List.nil_append, pyCountAux_cons, pyCountAux_nil]
    simp [hhd ys]
  | succ k ih =>
    intro xs hlen ys
    cases xs with
    | nil =>
      rw [List.nil_append, pyCountAux_cons, pyCountAux_nil]
      simp [hhd ys]
    | cons c t =>
      rw [List.cons_append, pyCountAux_cons, pyCountAux_cons pat c t]
      rw [show c :: (t ++ '\n' :: ys) = (c :: t) ++ '\n' :: ys from rfl]
      rw [isPrefixOf_append_newline pat (c :: t) ys hnl]
      by_cases hpre : pat.isPrefixOf (c :: t) = true
      · rw [if_pos ⟨hne, hpre⟩, if_pos ⟨hne, hpre⟩]
        have hlp : pat.length ≤ (c :: t).length := isPrefixOf_length_le pat (c :: t) hpre
        rw [List.drop_append_eq_append_drop, Nat.sub_eq_zero_of_le hlp, List.drop_zero]
        have hlp1 : 1 ≤ pat.length := by
          have := List.length_pos.mpr hne; omega
        have hdl : (List.drop pat.length (c :: t)).length ≤ k := by
          rw [List.length_drop]
          simp only [List.length_cons] at hlen ⊢
          omega
        rw [ih (List.drop pat.length (c :: t)) hdl ys]
        omega
      · have hpre' : (pat ≠ [] ∧ pat.isPrefixOf (c :: t) = true) → False := fun hc => hpre hc.2
        rw [if_neg hpre', if_neg hpre']
        have htl : t.length ≤ k := by
          simp only [List.length_cons] at hlen; omega
        exact ih t htl ys

/-- Newline-split for the count, at any two strings joined by `"\n"`. -/
theorem pyCountAux_data_split (pat : List Char) (hne : pat ≠ []) (hnl : '\n' ∉ pat)
    (xs ys : List Char) :
    pyCountAux pat (xs ++ '\n' :: ys) = pyCountAux pat xs + pyCountAux pat ys :=
  pyCountAux_split pat hne hnl xs.length xs (Nat.le_refl _) ys

theorem pagePat_eq : ("--- Page").data = ['-', '-', '-', ' ', 'P', 'a', 'g', 'e'] := rfl

theorem pagePat_ne_nil : ("--- Page").data ≠ [] := by rw [pagePat_eq]; simp

theorem pagePat_no_newline : '\n' ∉ ("--- Page").data := by rw [pagePat_eq]; decide

/-- No occurrence of the needle survives in a dash-free stretch followed by
the closing `---` and newline of a marker. -/
theorem pyCountAux_no_dash :
    ∀ ds : List Char, (∀ c ∈ ds, ¬(c = '-')) →
      pyCountAux ("--- Page").data (ds ++ ['-', '-', '-', '\n']) = 0 := by
  intro ds
  induction ds with
  | nil =>
    rw [List.nil_append]
    simp +decide [pyCountAux]
  | cons c t ih =>
    intro h
    have hc : ¬(c = '-') := h c (by simp)
    have hbeq : (('-' == c) = false) := beq_eq_false_iff_ne.mpr fun hcc => hc hcc.symm
    rw [List.cons_append, pyCountAux_cons]
    rw [if_neg]
    · exact ih fun d hd => h d (by simp [hd])
    · intro hcontra
      have := hcontra.2
      rw [pagePat_eq] at this
      simp [List.isPrefixOf, hbeq] at this

theorem natDecimal_data (n : Nat) : (natDecimal n).data = natDigits n := rfl

theorem pageMarker_data (n : Nat) :
    (pageMarker n).data =
      '\n' :: '-' :: '-' :: '-' :: ' ' :: 'P' :: 'a' :: 'g' :: 'e' :: ' ' ::
        (natDigits n ++ [' ', '-', '-', '-', '\n']) := by
  show (("\n--- Page " ++ natDecimal n) ++ " ---\n").data = _
  rw [String.data_append, String.data_append, natDecimal_data]
  rw [show ("\n--- Page ").data
      = ['\n', '-', '-', '-', ' ', 'P', 'a', 'g', 'e', ' '] from rfl]
  rw [show (" ---\n").data = [' ', '-', '-', '-', '\n'] from rfl]
  simp

/-- Each page marker contains the needle `"--- Page"` exactly once. -/
theorem pyCountAux_marker (n : Nat) :
    pyCountAux ("--- Page").data (pageMarker n).data = 1 := by
  rw [pageMarker_data, pyCountAux_cons]
  rw [if_neg]
  · rw [pyCountAux_cons, if_pos]
    · rw [show (("--- Page").data).length = 8 from rfl]
      rw [show List.drop 8 ('-' :: '-' :: '-' :: ' ' :: 'P' :: 'a' :: 'g' :: 'e' :: ' ' ::
          (natDigits n ++ [' ', '-', '-', '-', '\n']))
        = ' ' :: (natDigits n ++ [' ', '-', '-', '-', '\n']) from rfl]
      rw [show ' ' :: (natDigits n ++ [' ', '-', '-', '-', '\n'])
        = ((' ' :: natDigits n) ++ [' ']) ++ ['-', '-', '-', '\n'] from by simp]
      rw [pyCountAux_no_dash ((' ' :: natDigits n) ++ [' '])]
      intro c hcmem
      rcases List.mem_append.mp hcmem with h1 | h2
      · rcases List.mem_cons.mp h1 with h3 | h4
        · subst h3; decide
        · have hd := natDigits_all_digit n c h4
          exact fun hc => absurd (hc ▸ hd) (by decide)
      · simp only [List.mem_singleton] at h2
        subst h2; decide
    · constructor
      · exact pagePat_ne_nil
      · rw [pagePat_eq]
        simp [List.isPrefixOf]
  · intro hcontra
    have h2 := hcontra.2
    rw [pagePat_eq] at h2
    simp [List.isPrefixOf] at h2

theorem pyCount_eq_aux (s : String) :
    pyCount "--- Page" s = pyCountAux ("--- Page").data s.data := by
  rw [pyCount, if_neg pagePat_ne_nil]

/-- Block lists produced by the extraction loops: every block is either a
page marker or a page text free of the needle; the index counts markers. -/
inductive MarkerBlocks : List String → Nat → Prop where
  | nil : MarkerBlocks [] 0
  | marker (n : Nat) (bs : List String) (m : Nat) :
      MarkerBlocks bs m → MarkerBlocks (pageMarker n :: bs) (m + 1)
  | pagetext (t : String) (bs : List String) (m : Nat) :
      pyCountAux ("--- Page").data t.data = 0 →
      MarkerBlocks bs m → MarkerBlocks (t :: bs) m

theorem pyJoin_cons_data (x y : String) (rest : List String) :
    (pyJoin "\n" (x :: y :: rest)).data = x.data ++ '\n' :: (pyJoin "\n" (y :: rest)).data := by
  rw [show pyJoin "\n" (x :: y :: rest) = (x ++ "\n") ++ pyJoin "\n" (y :: rest) from rfl]
  rw [String.data_append, String.data_append]
  simp

theorem pyCountAux_pyJoin :
    ∀ (bs : List String) (m : Nat), MarkerBlocks bs m →
      pyCountAux ("--- Page").data (pyJoin "\n" bs).data = m := by
  intro bs m h
  induction h with
  | nil => rw [show (pyJoin "\n" []).data = [] from rfl, pyCountAux_nil]
  | marker n bs m hb ih =>
    cases bs with
    | nil =>
      cases hb
      rw [show pyJoin "\n" [pageMarker n] = pageMarker n from rfl]
      rw [pyCountAux_marker]
    | cons y rest =>
      rw [pyJoin_cons_data,
        pyCountAux_data_split _ pagePat_ne_nil pagePat_no_newline, ih, pyCountAux_marker]
      omega
  | pagetext t bs m hz hb ih =>
    cases bs with
    | nil =>
      cases hb
      rw [show pyJoin "\n" [t] = t from rfl, hz]
    | cons y rest =>
      rw [pyJoin_cons_data,
        pyCountAux_data_split _ pagePat_ne_nil pagePat_no_newline, ih, hz]
      omega

theorem pypdf2PageBlocks_marker :
    ∀ (ps : List PageRead) (n : Nat),
      (∀ t, PageRead.text t ∈ ps → pyCountAux ("--- Page").data t.data = 0) →
      MarkerBlocks (pypdf2PageBlocks n ps) (pypdf2Contrib ps) := by
  intro ps
  induction ps with
  | nil => intro n _; exact .nil
  | cons p rest ih =>
    intro n h
    have hrest : ∀ t, PageRead.text t ∈ rest → pyCountAux ("--- Page").data t.data = 0 :=
      fun t ht => h t (by simp [ht])
    cases p with
    | raise msg => exact ih (n + 1) hrest
    | null => exact ih (n + 1) hrest
    | text t =>
      by_cases hb : pyStrip t = ""
      · rw [show pypdf2PageBlocks n (.text t :: rest) = pypdf2PageBlocks (n + 1) rest
            from by rw [pypdf2PageBlocks, if_pos hb]]
        rw [show pypdf2Contrib (.text t :: rest) = 0 + pypdf2Contrib rest
            from by rw [pypdf2Contrib, if_pos hb]]
        rw [Nat.zero_add]
        exact ih (n + 1) hrest
      · rw [show pypdf2PageBlocks n (.text t :: rest)
            = pageMarker n :: t :: pypdf2PageBlocks (n + 1) rest
            from by rw [pypdf2PageBlocks, if_neg hb]]
        rw [show pypdf2Contrib (.text t :: rest) = 1 + pypdf2Contrib rest
            from by rw [pypdf2Contrib, if_neg hb]]
        rw [Nat.add_comm 1 (pypdf2Contrib rest)]
        exact .marker n _ _ (.pagetext t _ _ (h t (by simp)) (ih (n + 1) hrest))

theorem pdfplumberPageBlocks_marker :
    ∀ (ps : List PageRead) (n : Nat),
      (∀ t, PageRead.text t ∈ ps → pyCountAux ("--- Page").data t.data = 0) →
      MarkerBlocks (pdfplumberPageBlocks n ps) (pdfplumberContrib ps) := by
  intro ps
  induction ps with
  | nil => intro n _; exact .nil
  | cons p rest ih =>
    intro n h
    have hrest : ∀ t, PageRead.text t ∈ rest → pyCountAux ("--- Page").data t.data = 0 :=
      fun t ht => h t (by simp [ht])
    cases p with
    | raise msg => exact ih (n + 1) hrest
    | null => exact ih (n + 1) hrest
    | text t =>
      by_cases hb : t = "" ∨ pyStrip t = ""
      · rw [show pdfplumberPageBlocks n (.text t :: rest) = pdfplumberPageBlocks (n + 1) rest
            from by rw [pdfplumberPageBlocks, if_pos hb]]
        rw [show pdfplumberContrib (.text t :: rest) = 0 + pdfplumberContrib rest
            from by rw [pdfplumberContrib, if_pos hb]]
        rw [Nat.zero_add]
        exact ih (n + 1) hrest
      · rw [show pdfplumberPageBlocks n (.text t :: rest)
            = pageMarker n :: t :: pdfplumberPageBlocks (n + 1) rest
            from by rw [pdfplumberPageBlocks, if_neg hb]]
        rw [show pdfplumberContrib (.text t :: rest) = 1 + pdfplumberContrib rest
            from by rw [pdfplumberContrib, if_neg hb]]
        rw [Nat.add_comm 1 (pdfplumberContrib rest)]
        exact .marker n _ _ (.pagetext t _ _ (h t (by simp)) (ih (n + 1) hrest))

/-- Extractor-level count fact, pypdf2 strategy: when no page text contains
the needle, the count of `"--- Page"` in the output equals the number of
contributing pages. -/
theorem pyCount_extract_pypdf2 (ps : List PageRead)
    (h : ∀ t, PageRead.text t ∈ ps → pyCount "--- Page" t = 0) :
    pyCount "--- Page" (extract_text_pypdf2 (.ok ps)) = pypdf2Contrib ps := by
  rw [pyCount_eq_aux]
  exact pyCountAux_pyJoin _ _ (pypdf2PageBlocks_marker ps 1 fun t ht => by
    have := h t ht; rwa [pyCount_eq_aux] at this)

/-- Extractor-level count fact, pdfplumber strategy. -/
theorem pyCount_extract_pdfplumber (ps : List PageRead)
    (h : ∀ t, PageRead.text t ∈ ps → pyCount "--- Page" t = 0) :
    pyCount "--- Page" (extract_text_pdfplumber (.ok ps)) = pdfplumberContrib ps := by
  rw [pyCount_eq_aux]
  exact pyCountAux_pyJoin _ _ (pdfplumberPageBlocks_marker ps 1 fun t ht => by
    have := h t ht; rwa [pyCount_eq_aux] at this)

/-! ## Structure of the extraction loops: skipping a raising page,
page-order decomposition. -/

theorem pyStrip_empty : pyStrip "" = "" := rfl

theorem pypdf2PageBlocks_raise (n : Nat) (msg : String) (l : List PageRead) :
    pypdf2PageBlocks n (PageRead.raise msg :: l) = pypdf2PageBlocks (n + 1) l := rfl

theorem pypdf2PageBlocks_null (n : Nat) (l : List PageRead) :
    pypdf2PageBlocks n (PageRead.null :: l) = pypdf2PageBlocks (n + 1) l := rfl

theorem pypdf2PageBlocks_text (n : Nat) (t : String) (l : List PageRead) :
    pypdf2PageBlocks n (PageRead.text t :: l) =
      if pyStrip t = "" then pypdf2PageBlocks (n + 1) l
      else pageMarker n :: t :: pypdf2PageBlocks (n + 1) l := rfl

theorem pdfplumberPageBlocks_raise (n : Nat) (msg : String) (l : List PageRead) :
    pdfplumberPageBlocks n (PageRead.raise msg :: l) = pdfplumberPageBlocks (n + 1) l := rfl

theorem pdfplumberPageBlocks_null (n : Nat) (l : List PageRead) :
    pdfplumberPageBlocks n (PageRead.null :: l) = pdfplumberPageBlocks (n + 1) l := rfl

theorem pdfplumberPageBlocks_text (n : Nat) (t : String) (l : List PageRead) :
    pdfplumberPageBlocks n (PageRead.text t :: l) =
      if t = "" ∨ pyStrip t = "" then pdfplumberPageBlocks (n + 1) l
      else pageMarker n :: t :: pdfplumberPageBlocks (n + 1) l := rfl

theorem pypdf2PageBlocks_append :
    ∀ (xs ys : List PageRead) (n : Nat),
      pypdf2PageBlocks n (xs ++ ys)
        = pypdf2PageBlocks n xs ++ pypdf2PageBlocks (n + xs.length) ys := by
  intro xs
  induction xs with
  | nil => intro ys n; simp [pypdf2PageBlocks]
  | cons p rest ih =>
    intro ys n
    have hlen : n + (rest.length + 1) = (n + 1) + rest.length := by omega
    cases p with
    | raise msg =>
      simp only [List.cons_append, pypdf2PageBlocks_raise, List.length_cons, hlen, ih ys (n + 1)]
    | null =>
      simp only [List.cons_append, pypdf2PageBlocks_null, List.length_cons, hlen, ih ys (n + 1)]
    | text t =>
      by_cases hb : pyStrip t = ""
      · simp only [List.cons_append, pypdf2PageBlocks_text, if_pos hb, List.length_cons, hlen,
          ih ys (n + 1)]
      · simp only [List.cons_append, pypdf2PageBlocks_text, if_neg hb, List.length_cons, hlen,
          ih ys (n + 1)]

theorem pdfplumberPageBlocks_append :
    ∀ (xs ys : List PageRead) (n : Nat),
      pdfplumberPageBlocks n (xs ++ ys)
        = pdfplumberPageBlocks n xs ++ pdfplumberPageBlocks (n + xs.length) ys := by
  intro xs
  induction xs with
  | nil => intro ys n; simp [pdfplumberPageBlocks]
  | cons p rest ih =>
    intro ys n
    have hlen : n + (rest.length + 1) = (n + 1) + rest.length := by omega
    cases p with
    | raise msg =>
      simp only [List.cons_append, pdfplumberPageBlocks_raise, List.length_cons, hlen,
        ih ys (n + 1)]
    | null =>
      simp only [List.cons_append, pdfplumberPageBlocks_null, List.length_cons, hlen,
        ih ys (n + 1)]
    | text t =>
      by_cases hb : t = "" ∨ pyStrip t = ""
      · simp only [List.cons_append, pdfplumberPageBlocks_text, if_pos hb, List.length_cons, hlen,
          ih ys (n + 1)]
      · simp only [List.cons_append, pdfplumberPageBlocks_text, if_neg hb, List.length_cons, hlen,
          ih ys (n + 1)]

theorem pypdf2PageBlocks_texts :
    ∀ (ts : List String) (n : Nat), (∀ t ∈ ts, ¬(pyStrip t = "")) →
      pypdf2PageBlocks n (ts.map PageRead.text) = specMarkedBlocks n ts := by
  intro ts
  induction ts with
  | nil => intro n _; rfl
  | cons t rest ih =>
    intro n h
    rw [List.map_cons]
    rw [show pypdf2PageBlocks n (PageRead.text t :: rest.map PageRead.text)
        = pageMarker n :: t :: pypdf2PageBlocks (n + 1) (rest.map PageRead.text)
        from by rw [pypdf2PageBlocks, if_neg (h t (by simp))]]
    rw [ih (n + 1) fun u hu => h u (by simp [hu])]
    rfl

theorem pdfplumberPageBlocks_texts :
    ∀ (ts : List String) (n : Nat), (∀ t ∈ ts, ¬(pyStrip t = "")) →
      pdfplumberPageBlocks n (ts.map PageRead.text) = specMarkedBlocks n ts := by
  intro ts
  induction ts with
  | nil => intro n _; rfl
  | cons t rest ih =>
    intro n h
    have hne : ¬(t = "" ∨ pyStrip t = "") := by
      intro hc
      rcases hc with h1 | h2
      · exact h t (by simp) (by rw [h1, pyStrip_empty])
      · exact h t (by simp) h2
    rw [List.map_cons]
    rw [show pdfplumberPageBlocks n (PageRead.text t :: rest.map PageRead.text)
        = pageMarker n :: t :: pdfplumberPageBlocks (n + 1) (rest.map PageRead.text)
        from by rw [pdfplumberPageBlocks, if_neg hne]]
    rw [ih (n + 1) fun u hu => h u (by simp [hu])]
    rfl

/-! ## Concrete environments used by witnesses and counterexamples. -/

/-- Normal operation: one-byte body, distinct one-page documents under the
two backends. -/
def envOk : Env :=
  { get := .success [0],
    head := .success "application/pdf" "100" "Mon" 200,
    backend := { pypdf2_doc := fun _ => .ok [.text "A"],
                 pdfplumber_doc := fun _ => .ok [.text "B"] },
    pipeline_fault := none, tool_fault := none }

/-- A GET that succeeds with an empty body. -/
def envEmptyBody : Env :=
  { envOk with get := .success [] }

/-- A network-layer failure on the GET. -/
def envNetFail : Env :=
  { envOk with get := .failure "timed out" }

/-- A body malformed for the pdfplumber backend only; pypdf2 would parse
it — malformedness for just the chosen strategy. -/
def envBadPlumber : Env :=
  { envOk with backend := { pypdf2_doc := fun _ => .ok [.text "A"],
                            pdfplumber_doc := fun _ => .error "bad xref" } }

/-- A one-page document whose page text itself contains `"--- Page"`. -/
def envSneaky : Env :=
  { envOk with backend := { pypdf2_doc := fun _ => .ok [.text "x --- Page y"],
                            pdfplumber_doc := fun _ => .ok [.text "x --- Page y"] } }

/-! ## The claims. -/

/-- C1: every `PipelineResult` returned by `process_pdf_from_url` satisfies
the envelope invariant — success implies a `none` error and non-empty text;
failure implies empty text and a present error string — on every exit path
(download failure, empty extraction, the unexpected-exception branch, and
success). -/
theorem c1_envelope_invariant (env : Env) (url method : String) :
    ((process_pdf_from_url env url method).1.success = true →
      (process_pdf_from_url env url method).1.error = none ∧
      ¬((process_pdf_from_url env url method).1.text = "")) ∧
    ((process_pdf_from_url env url method).1.success = false →
      (process_pdf_from_url env url method).1.text = "" ∧
      ∃ e, (process_pdf_from_url env url method).1.error = some e) := by
  rcases hdl : (download_pdf env url).1 with _ | content
  · simp [process_pdf_from_url, hdl, initResult]
  · by_cases hc : content = []
    · simp [process_pdf_from_url, hdl, hc, initResult]
    · rcases hf : env.pipeline_fault with _ | m
      · by_cases hm : pyLower method = "pdfplumber"
        · by_cases hs : pyStrip (extract_text_pdfplumber (env.backend.pdfplumber_doc content)) = ""
          · simp [process_pdf_from_url, hdl, hc, hf, hm, hs, initResult]
          · have hnz : ¬(extract_text_pdfplumber (env.backend.pdfplumber_doc content) = "") :=
              fun ht => hs (by rw [ht]; rfl)
            simp [process_pdf_from_url, hdl, hc, hf, hm, hs, initResult, hnz]
        · by_cases hs : pyStrip (extract_text_pypdf2 (env.backend.pypdf2_doc content)) = ""
          · simp [process_pdf_from_url, hdl, hc, hf, hm, hs, initResult]
          · have hnz : ¬(extract_text_pypdf2 (env.backend.pypdf2_doc content) = "") :=
              fun ht => hs (by rw [ht]; rfl)
            simp [process_pdf_from_url, hdl, hc, hf, hm, hs, initResult, hnz]
      · simp [process_pdf_from_url, hdl, hc, hf, initResult]

/-- Witness for C1 at a concrete successful run. -/
theorem c1_envelope_invariant_witness :
    (process_pdf_from_url envOk "http://a" "pdfplumber").1.error = none ∧
    ¬((process_pdf_from_url envOk "http://a" "pdfplumber").1.text = "") :=
  (c1_envelope_invariant envOk "http://a" "pdfplumber").1 (by decide)

/-- C6: a byte sequence that is not a well-formed document for the chosen
strategy — the one the method string dispatches to, regardless of what the
other backend would do with the same bytes — makes extraction return empty
text without raising, and the pipeline converts this into a failure with
error exactly `"No text could be extracted from PDF"` and zero pages
processed. -/
theorem c6_malformed_document (env : Env) (url method : String) (content : List Nat)
    (msg : String)
    (hdl : (download_pdf env url).1 = some content)
    (hc : ¬(content = []))
    (hf : env.pipeline_fault = none)
    (hdoc : (if pyLower method = "pdfplumber" then env.backend.pdfplumber_doc content
             else env.backend.pypdf2_doc content) = .error msg) :
    extract_text_pdfplumber (.error msg) = "" ∧
    extract_text_pypdf2 (.error msg) = "" ∧
    (process_pdf_from_url env url method).1
      = failureResult url method "No text could be extracted from PDF" := by
  refine ⟨rfl, rfl, ?_⟩
  by_cases hm : pyLower method = "pdfplumber"
  · rw [if_pos hm] at hdoc
    simp [process_pdf_from_url, hdl, hc, hf, hm, hdoc, extract_text_pdfplumber,
      failureResult, initResult, pyStrip_empty]
  · rw [if_neg hm] at hdoc
    simp [process_pdf_from_url, hdl, hc, hf, hm, hdoc, extract_text_pypdf2,
      failureResult, initResult, pyStrip_empty]

/-- Witness for C6 at a document malformed for the chosen pdfplumber
strategy only — the pypdf2 backend would parse the same bytes. -/
theorem c6_malformed_document_witness :
    extract_text_pdfplumber (.error "bad xref") = "" ∧
    extract_text_pypdf2 (.error "bad xref") = "" ∧
    (process_pdf_from_url envBadPlumber "http://a" "pdfplumber").1
      = failureResult "http://a" "pdfplumber" "No text could be extracted from PDF" :=
  c6_malformed_document envBadPlumber "http://a" "pdfplumber" [0] "bad xref"
    rfl (by simp) rfl rfl

/-- C9: `get_pdf_metadata` never raises: it returns the probe record exactly
when the HEAD request succeeds and the error record (carrying the url)
otherwise, and its output depends only on the HEAD outcome — no body fetch
is consulted. -/
theorem c9_metadata_probe (env env' : Env) (url : String) :
    ((∃ ct cl lm sc, env.head = HeadOutcome.success ct cl lm sc ∧
        get_pdf_metadata env url = .probe ct cl lm sc url) ∨
      (∃ m, env.head = HeadOutcome.failure m ∧
        get_pdf_metadata env url = .failure m url)) ∧
    (env.head = env'.head → get_pdf_metadata env url = get_pdf_metadata env' url) := by
  constructor
  · rcases hh : env.head with ⟨ct, cl, lm, sc⟩ | m
    · exact Or.inl ⟨ct, cl, lm, sc, rfl, by simp [get_pdf_metadata, hh]⟩
    · exact Or.inr ⟨m, rfl, by simp [get_pdf_metadata, hh]⟩
  · intro h
    simp [get_pdf_metadata, h]

/-- Witness for C9 at two concrete environments with the same HEAD outcome. -/
theorem c9_metadata_probe_witness :
    get_pdf_metadata envOk "http://a" = get_pdf_metadata envEmptyBody "http://a" :=
  (c9_metadata_probe envOk envEmptyBody "http://a").2 rfl

/-- C10: called with the empty string as url (in normal operation),
`download_and_parse_pdf` returns exactly `"Error: Invalid URL provided"`
before invoking the fetcher or the extractor (the trace records zero GET
requests and zero extraction runs). -/
theorem c10_invalid_url_string (env : Env) (method : String)
    (hf : env.tool_fault = none) :
    download_and_parse_pdf env "" method = ("Error: Invalid URL provided", ⟨0, 0⟩) := by
  simp [download_and_parse_pdf, hf]

/-- Witness for C10 at a concrete environment. -/
theorem c10_invalid_url_string_witness :
    download_and_parse_pdf envOk "" "pdfplumber" = ("Error: Invalid URL provided", ⟨0, 0⟩) :=
  c10_invalid_url_string envOk "pdfplumber" rfl

/-- C2: in a document where extraction of page `k` raises and every other
page yields non-blank text, the extracted text consists of the markers and
texts of all pages except `k`, in ascending page order, with page `k`
omitted entirely — under both strategies; a failing page never aborts the
rest, and re-running on the same input yields identical output. -/
theorem c2_failing_page_skipped (A B : List String) (msg : String)
    (hA : ∀ t ∈ A, ¬(pyStrip t = "")) (hB : ∀ t ∈ B, ¬(pyStrip t = "")) :
    extract_text_pypdf2
        (.ok (A.map PageRead.text ++ PageRead.raise msg :: B.map PageRead.text))
      = pyJoin "\n" (specMarkedBlocks 1 A ++ specMarkedBlocks (A.length + 2) B) ∧
    extract_text_pdfplumber
        (.ok (A.map PageRead.text ++ PageRead.raise msg :: B.map PageRead.text))
      = pyJoin "\n" (specMarkedBlocks 1 A ++ specMarkedBlocks (A.length + 2) B) ∧
    extract_text_pypdf2
        (.ok (A.map PageRead.text ++ PageRead.raise msg :: B.map PageRead.text))
      = extract_text_pypdf2
        (.ok (A.map PageRead.text ++ PageRead.raise msg :: B.map PageRead.text)) ∧
    extract_text_pdfplumber
        (.ok (A.map PageRead.text ++ PageRead.raise msg :: B.map PageRead.text))
      = extract_text_pdfplumber
        (.ok (A.map PageRead.text ++ PageRead.raise msg :: B.map PageRead.text)) := by
  have h1 : pypdf2PageBlocks 1 (A.map PageRead.text ++ PageRead.raise msg :: B.map PageRead.text)
      = specMarkedBlocks 1 A ++ specMarkedBlocks (A.length + 2) B := by
    rw [pypdf2PageBlocks_append, List.length_map, pypdf2PageBlocks_raise]
    rw [pypdf2PageBlocks_texts A 1 hA]
    rw [show 1 + A.length + 1 = A.length + 2 from by omega]
    rw [pypdf2PageBlocks_texts B (A.length + 2) hB]
  have h2 : pdfplumberPageBlocks 1 (A.map PageRead.text ++ PageRead.raise msg :: B.map PageRead.text)
      = specMarkedBlocks 1 A ++ specMarkedBlocks (A.length + 2) B := by
    rw [pdfplumberPageBlocks_append, List.length_map, pdfplumberPageBlocks_raise]
    rw [pdfplumberPageBlocks_texts A 1 hA]
    rw [show 1 + A.length + 1 = A.length + 2 from by omega]
    rw [pdfplumberPageBlocks_texts B (A.length + 2) hB]
  refine ⟨?_, ?_, rfl, rfl⟩
  · show pyJoin "\n" (pypdf2PageBlocks 1 _) = _
    rw [h1]
  · show pyJoin "\n" (pdfplumberPageBlocks 1 _) = _
    rw [h2]

/-- Witness for C2 at a three-page document whose middle page raises. -/
theorem c2_failing_page_skipped_witness :
    (∀ t ∈ ["a"], ¬(pyStrip t = "")) ∧
    extract_text_pypdf2
        (.ok (["a"].map PageRead.text ++ PageRead.raise "boom" :: ["b"].map PageRead.text))
      = pyJoin "\n" (specMarkedBlocks 1 ["a"] ++ specMarkedBlocks 3 ["b"]) ∧
    extract_text_pdfplumber
        (.ok (["a"].map PageRead.text ++ PageRead.raise "boom" :: ["b"].map PageRead.text))
      = pyJoin "\n" (specMarkedBlocks 1 ["a"] ++ specMarkedBlocks 3 ["b"]) :=
  ⟨by decide,
    (c2_failing_page_skipped ["a"] ["b"] "boom" (by decide) (by decide)).1,
    (c2_failing_page_skipped ["a"] ["b"] "boom" (by decide) (by decide)).2.1⟩

/-- C3 counterexample: a successful run over a one-page document whose page
text itself contains `"--- Page"` reports `pages_processed = 2`, while only
one page contributed a marker — the claimed equality fails on such inputs
because the source counts substring occurrences. -/
theorem c3_pages_processed_counterexample :
    envSneaky.backend.pdfplumber_doc [0] = .ok [PageRead.text "x --- Page y"] ∧
    (process_pdf_from_url envSneaky "http://a" "pdfplumber").1.success = true ∧
    (process_pdf_from_url envSneaky "http://a" "pdfplumber").1.metadata.pages_processed = 2 ∧
    pdfplumberContrib [PageRead.text "x --- Page y"] = 1 ∧
    ¬((process_pdf_from_url envSneaky "http://a" "pdfplumber").1.metadata.pages_processed
        = pdfplumberContrib [PageRead.text "x --- Page y"]) := by
  refine ⟨rfl, by decide, by decide, by decide, by decide⟩

/-- C3 (amended): `metadata.pages_processed` always equals the number of
occurrences of the substring `"--- Page"` in the returned text (for failure
results both are zero); this equals the number of pages that contributed a
marker whenever no page text itself contains `"--- Page"`, under either
strategy. -/
theorem c3_pages_processed_amended (env : Env) (url method : String) (ps : List PageRead) :
    ((process_pdf_from_url env url method).1.metadata.pages_processed
        = pyCount "--- Page" (process_pdf_from_url env url method).1.text) ∧
    ((∀ t, PageRead.text t ∈ ps → pyCount "--- Page" t = 0) →
      pyCount "--- Page" (extract_text_pypdf2 (.ok ps)) = pypdf2Contrib ps ∧
      pyCount "--- Page" (extract_text_pdfplumber (.ok ps)) = pdfplumberContrib ps) := by
  constructor
  · have hzero : pyCount "--- Page" "" = 0 := by
      rw [pyCount_eq_aux]; exact pyCountAux_nil _
    rcases hdl : (download_pdf env url).1 with _ | content
    · simp [process_pdf_from_url, hdl, initResult, hzero]
    · by_cases hc : content = []
      · simp [process_pdf_from_url, hdl, hc, initResult, hzero]
      · rcases hf : env.pipeline_fault with _ | m
        · by_cases hm : pyLower method = "pdfplumber"
          · by_cases hs :
                pyStrip (extract_text_pdfplumber (env.backend.pdfplumber_doc content)) = ""
            · simp [process_pdf_from_url, hdl, hc, hf, hm, hs, initResult, hzero]
            · simp [process_pdf_from_url, hdl, hc, hf, hm, hs, initResult]
          · by_cases hs : pyStrip (extract_text_pypdf2 (env.backend.pypdf2_doc content)) = ""
            · simp [process_pdf_from_url, hdl, hc, hf, hm, hs, initResult, hzero]
            · simp [process_pdf_from_url, hdl, hc, hf, hm, hs, initResult]
        · simp [process_pdf_from_url, hdl, hc, hf, initResult, hzero]
  · intro h
    exact ⟨pyCount_extract_pypdf2 ps h, pyCount_extract_pdfplumber ps h⟩

/-- Witness for C3 (amended) at a clean one-page document. -/
theorem c3_pages_processed_amended_witness :
    (∀ t, PageRead.text t ∈ [PageRead.text "A"] → pyCount "--- Page" t = 0) ∧
    (pyCount "--- Page" (extract_text_pypdf2 (.ok [PageRead.text "A"]))
        = pypdf2Contrib [PageRead.text "A"] ∧
      pyCount "--- Page" (extract_text_pdfplumber (.ok [PageRead.text "A"]))
        = pdfplumberContrib [PageRead.text "A"]) := by
  have hyp : ∀ t, PageRead.text t ∈ [PageRead.text "A"] → pyCount "--- Page" t = 0 := by
    intro t ht
    simp only [List.mem_singleton, PageRead.text.injEq] at ht
    subst ht
    decide
  exact ⟨hyp, (c3_pages_processed_amended envOk "http://a" "pdfplumber" [PageRead.text "A"]).2 hyp⟩

/-- C4 counterexample: with distinct one-page documents under the two
backends, `process_pdf_from_url` with the unrecognized method `"bogus"`
produces the pypdf2 text, not the default pdfplumber text — the claimed
fallback to the default strategy does not happen at the `run` level. -/
theorem c4_unknown_method_counterexample :
    ¬((process_pdf_from_url envOk "http://a" "bogus").1.text
        = (process_pdf_from_url envOk "http://a" "pdfplumber").1.text) ∧
    (process_pdf_from_url envOk "http://a" "bogus").1.text
      = (process_pdf_from_url envOk "http://a" "pypdf2").1.text :=
  ⟨by decide, by decide⟩

/-- C4 (amended): an unrecognized method string never by itself fails the
call — `download_and_parse_pdf` silently normalizes any method outside the
two recognized names to the default `"pdfplumber"` (its output coincides
with the default call), while `process_pdf_from_url` itself maps every
method whose lowercase form is not `"pdfplumber"` to the pypdf2 strategy,
its result differing from the substituted call only in the recorded
`metadata.method` string. -/
theorem c4_unknown_method_amended (env : Env) (url method : String) :
    (¬(method = "pdfplumber" ∨ method = "pypdf2") →
      download_and_parse_pdf env url method = download_and_parse_pdf env url "pdfplumber") ∧
    (¬(pyLower method = "pdfplumber") →
      (process_pdf_from_url env url method).1
        = { (process_pdf_from_url env url "pypdf2").1 with
            metadata := { (process_pdf_from_url env url "pypdf2").1.metadata with
                          method := method } }) := by
  constructor
  · intro h
    rcases ht : env.tool_fault with _ | m
    · by_cases hu : url = ""
      · simp [download_and_parse_pdf, ht, hu]
      · simp [download_and_parse_pdf, ht, hu, h]
    · simp [download_and_parse_pdf, ht]
  · intro h
    have hp : ¬(pyLower "pypdf2" = "pdfplumber") := by decide
    rcases hdl : (download_pdf env url).1 with _ | content
    · simp [process_pdf_from_url, hdl, initResult]
    · by_cases hc : content = []
      · simp [process_pdf_from_url, hdl, hc, initResult]
      · rcases hf : env.pipeline_fault with _ | m
        · by_cases hs : pyStrip (extract_text_pypdf2 (env.backend.pypdf2_doc content)) = ""
          · simp [process_pdf_from_url, hdl, hc, hf, h, hp, hs, initResult]
          · simp [process_pdf_from_url, hdl, hc, hf, h, hp, hs, initResult]
        · simp [process_pdf_from_url, hdl, hc, hf, initResult]

/-- Witness for C4 (amended) at the unrecognized method string `"bogus"`. -/
theorem c4_unknown_method_amended_witness :
    download_and_parse_pdf envOk "http://a" "bogus"
      = download_and_parse_pdf envOk "http://a" "pdfplumber" ∧
    (process_pdf_from_url envOk "http://a" "bogus").1
      = { (process_pdf_from_url envOk "http://a" "pypdf2").1 with
          metadata := { (process_pdf_from_url envOk "http://a" "pypdf2").1.metadata with
                        method := "bogus" } } :=
  ⟨(c4_unknown_method_amended envOk "http://a" "bogus").1 (by decide),
    (c4_unknown_method_amended envOk "http://a" "bogus").2 (by decide)⟩

/-- C5 counterexample: a GET that succeeds with an empty body still makes
`process_pdf_from_url` return the exact download-failure envelope
(`if not pdf_content:` is falsy for `b""`), so the envelope is not returned
only when the fetch fails — the claimed equivalence is refuted. -/
theorem c5_download_failure_counterexample :
    (process_pdf_from_url envEmptyBody "http://a" "pdfplumber").1
      = failureResult "http://a" "pdfplumber" "Failed to download PDF" ∧
    (download_pdf envEmptyBody "http://a").1 = some [] ∧
    ¬(((process_pdf_from_url envEmptyBody "http://a" "pdfplumber").1
        = failureResult "http://a" "pdfplumber" "Failed to download PDF")
      ↔ (download_pdf envEmptyBody "http://a").1 = none) := by
  refine ⟨by decide, by decide, ?_⟩
  intro hiff
  have := hiff.mp (by decide)
  simp at this
  exact absurd this (by decide)

/-- C5 (amended): in normal operation the exact envelope
`{success := false, text := "", error := "Failed to download PDF",
metadata := {url, method, 0, 0}}` is returned iff the fetch returns `None`
or an empty body; a syntactically invalid URL (missing scheme or host,
including the empty string) makes the fetch fail immediately with zero GET
requests issued; a network-layer error fails after the single non-retried
request. -/
theorem c5_download_failure_amended (env : Env) (url method msg : String)
    (hf : env.pipeline_fault = none) :
    ((process_pdf_from_url env url method).1
        = failureResult url method "Failed to download PDF"
      ↔ ((download_pdf env url).1 = none ∨ (download_pdf env url).1 = some [])) ∧
    ((urlparse url).scheme = "" ∨ (urlparse url).netloc = "" →
      download_pdf env url = (none, 0)) ∧
    (¬((urlparse url).scheme = "" ∨ (urlparse url).netloc = "") →
      env.get = .failure msg → download_pdf env url = (none, 1)) := by
  refine ⟨?_, ?_, ?_⟩
  · constructor
    · intro heq
      rcases hdl : (download_pdf env url).1 with _ | content
      · exact Or.inl rfl
      · by_cases hc : content = []
        · exact Or.inr (by rw [hc])

        · exfalso
          have herr : (process_pdf_from_url env url method).1.error
              = some "Failed to download PDF" := by rw [heq]; rfl
          have hsucc : (process_pdf_from_url env url method).1.success = false := by
            rw [heq]; rfl
          by_cases hm : pyLower method = "pdfplumber"
          · by_cases hs :
                pyStrip (extract_text_pdfplumber (env.backend.pdfplumber_doc content)) = ""
            · rw [show (process_pdf_from_url env url method).1.error
                  = some "No text could be extracted from PDF"
                  from by simp [process_pdf_from_url, hdl, hc, hf, hm, hs]] at herr
              exact absurd (Option.some.inj herr) (by decide)
            · rw [show (process_pdf_from_url env url method).1.success = true
                  from by simp [process_pdf_from_url, hdl, hc, hf, hm, hs]] at hsucc
              exact absurd hsucc (by decide)
          · by_cases hs : pyStrip (extract_text_pypdf2 (env.backend.pypdf2_doc content)) = ""
            · rw [show (process_pdf_from_url env url method).1.error
                  = some "No text could be extracted from PDF"
                  from by simp [process_pdf_from_url, hdl, hc, hf, hm, hs]] at herr
              exact absurd (Option.some.inj herr) (by decide)
            · rw [show (process_pdf_from_url env url method).1.success = true
                  from by simp [process_pdf_from_url, hdl, hc, hf, hm, hs]] at hsucc
              exact absurd hsucc (by decide)
    · intro hor
      rcases hor with h | h
      · simp [process_pdf_from_url, h, initResult, failureResult]
      · simp [process_pdf_from_url, h, initResult, failureResult]
  · intro h
    simp [download_pdf, h]
  · intro h hg
    simp [download_pdf, h, hg]

/-- Witness for C5 (amended) at a network failure. -/
theorem c5_download_failure_amended_witness :
    ((process_pdf_from_url envNetFail "http://a" "pdfplumber").1
        = failureResult "http://a" "pdfplumber" "Failed to download PDF"
      ↔ ((download_pdf envNetFail "http://a").1 = none ∨
          (download_pdf envNetFail "http://a").1 = some [])) ∧
    ((urlparse "http://a").scheme = "" ∨ (urlparse "http://a").netloc = "" →
      download_pdf envNetFail "http://a" = (none, 0)) ∧
    (¬((urlparse "http://a").scheme = "" ∨ (urlparse "http://a").netloc = "") →
      envNetFail.get = .failure "timed out" → download_pdf envNetFail "http://a" = (none, 1)) :=
  c5_download_failure_amended envNetFail "http://a" "pdfplumber" "timed out" rfl

/-- C7 counterexample: for the empty url the output is the distinct string
`"Error: Invalid URL provided"`, which matches neither of the two claimed
failure shapes (nor the success-report shape). -/
theorem c7_failure_shapes_counterexample :
    (download_and_parse_pdf envOk "" "pdfplumber").1 = "Error: Invalid URL provided" ∧
    (∀ e, ¬((download_and_parse_pdf envOk "" "pdfplumber").1
        = "Failed to process PDF: " ++ e)) ∧
    (∀ m, ¬((download_and_parse_pdf envOk "" "pdfplumber").1
        = "Unexpected error in download_and_parse_pdf: " ++ m)) ∧
    (∀ (md : Metadata) (t : String), ¬((download_and_parse_pdf envOk "" "pdfplumber").1
        = formatHeader md ++ t)) := by
  have h1 : (download_and_parse_pdf envOk "" "pdfplumber").1 = "Error: Invalid URL provided" := by
    decide
  refine ⟨h1, ?_, ?_, ?_⟩
  · intro e he
    rw [h1] at he
    have hd : some 'E' = some 'F' := by
      calc some 'E' = ("Error: Invalid URL provided").data.head? := rfl
        _ = ("Failed to process PDF: " ++ e).data.head? := by rw [he]
        _ = some 'F' := rfl
    exact absurd hd (by decide)
  · intro m hm
    rw [h1] at hm
    have hd : some 'E' = some 'U' := by
      calc some 'E' = ("Error: Invalid URL provided").data.head? := rfl
        _ = ("Unexpected error in download_and_parse_pdf: " ++ m).data.head? := by rw [hm]
        _ = some 'U' := rfl
    exact absurd hd (by decide)
  · intro md t hr
    rw [h1] at hr
    have hd : some 'E' = some '\n' := by
      calc some 'E' = ("Error: Invalid URL provided").data.head? := rfl
        _ = (formatHeader md ++ t).data.head? := by rw [hr]
        _ = some '\n' := rfl
    exact absurd hd (by decide)

/-- C7 (amended): `download_and_parse_pdf` is total and its output always
takes one of exactly four shapes: the formatted success report, the
single-line `"Failed to process PDF: <error>"`, the
`"Unexpected error in download_and_parse_pdf: <message>"` string for
injected faults, or — for the empty url — `"Error: Invalid URL provided"`. -/
theorem c7_output_shapes_amended (env : Env) (url method : String) :
    (∃ r : PipelineResult, r.success = true ∧
        (download_and_parse_pdf env url method).1 = formatHeader r.metadata ++ r.text) ∨
    (∃ e, (download_and_parse_pdf env url method).1 = "Failed to process PDF: " ++ e) ∨
    (∃ m, (download_and_parse_pdf env url method).1
        = "Unexpected error in download_and_parse_pdf: " ++ m) ∨
    (url = "" ∧ (download_and_parse_pdf env url method).1 = "Error: Invalid URL provided") := by
  rcases ht : env.tool_fault with _ | m
  · by_cases hu : url = ""
    · refine Or.inr (Or.inr (Or.inr ⟨hu, ?_⟩))
      simp [download_and_parse_pdf, ht, hu]
    · by_cases hm : method = "pdfplumber" ∨ method = "pypdf2"
      · by_cases hsucc : (process_pdf_from_url env url method).1.success = true
        · refine Or.inl ⟨(process_pdf_from_url env url method).1, hsucc, ?_⟩
          simp [download_and_parse_pdf, ht, hu, hm, hsucc]
        · refine Or.inr (Or.inl ⟨errorText (process_pdf_from_url env url method).1.error, ?_⟩)
          simp [download_and_parse_pdf, ht, hu, hm, hsucc]
      · by_cases hsucc : (process_pdf_from_url env url "pdfplumber").1.success = true
        · refine Or.inl ⟨(process_pdf_from_url env url "pdfplumber").1, hsucc, ?_⟩
          simp [download_and_parse_pdf, ht, hu, hm, hsucc]
        · refine Or.inr (Or.inl ⟨errorText (process_pdf_from_url env url "pdfplumber").1.error,
            ?_⟩)
          simp [download_and_parse_pdf, ht, hu, hm, hsucc]
  · refine Or.inr (Or.inr (Or.inl ⟨m, ?_⟩))
    simp [download_and_parse_pdf, ht]

/-- C8 counterexample: a successful result whose url contains a newline
(`urlparse` strips newlines, so such a url passes validation and can
succeed) formats into a report whose header can no longer be parsed back:
parsing fails outright (`none`), recovering nothing. -/
theorem c8_roundtrip_counterexample :
    (process_pdf_from_url envOk "http://a\nb" "pdfplumber").1.success = true ∧
    (process_pdf_from_url envOk "http://a\nb" "pdfplumber").1.metadata.url = "http://a\nb" ∧
    parseReport
        (formatHeader (process_pdf_from_url envOk "http://a\nb" "pdfplumber").1.metadata
          ++ (process_pdf_from_url envOk "http://a\nb" "pdfplumber").1.text)
      = none := by
  refine ⟨by decide, by decide, ?_⟩
  decide

theorem dropLit1 (rest : List Char) :
    dropLiteral ['\n', '=', '=', '=', ' ', 'P', 'D', 'F', ' ', 'P', 'r', 'o', 'c', 'e', 's', 's', 'i', 'n', 'g', ' ', 'R', 'e', 's', 'u', 'l', 't', 's', ' ', '=', '=', '=', '\n', 'S', 'o', 'u', 'r', 'c', 'e', ' ', 'U', 'R', 'L', ':', ' ']
      ('\n' :: '=' :: '=' :: '=' :: ' ' :: 'P' :: 'D' :: 'F' :: ' ' :: 'P' :: 'r' :: 'o' :: 'c' :: 'e' :: 's' :: 's' :: 'i' :: 'n' :: 'g' :: ' ' :: 'R' :: 'e' :: 's' :: 'u' :: 'l' :: 't' :: 's' :: ' ' :: '=' :: '=' :: '=' :: '\n' :: 'S' :: 'o' :: 'u' :: 'r' :: 'c' :: 'e' :: ' ' :: 'U' :: 'R' :: 'L' :: ':' :: ' ' :: rest) = some rest :=
  dropLiteral_append ['\n', '=', '=', '=', ' ', 'P', 'D', 'F', ' ', 'P', 'r', 'o', 'c', 'e', 's', 's', 'i', 'n', 'g', ' ', 'R', 'e', 's', 'u', 'l', 't', 's', ' ', '=', '=', '=', '\n', 'S', 'o', 'u', 'r', 'c', 'e', ' ', 'U', 'R', 'L', ':', ' '] rest

theorem dropLit2 (rest : List Char) :
    dropLiteral ['P', 'a', 'g', 'e', 's', ' ', 'P', 'r', 'o', 'c', 'e', 's', 's', 'e', 'd', ':', ' ']
      ('P' :: 'a' :: 'g' :: 'e' :: 's' :: ' ' :: 'P' :: 'r' :: 'o' :: 'c' :: 'e' :: 's' :: 's' :: 'e' :: 'd' :: ':' :: ' ' :: rest) = some rest :=
  dropLiteral_append ['P', 'a', 'g', 'e', 's', ' ', 'P', 'r', 'o', 'c', 'e', 's', 's', 'e', 'd', ':', ' '] rest

theorem dropLit3 (rest : List Char) :
    dropLiteral ['C', 'o', 'n', 't', 'e', 'n', 't', ' ', 'L', 'e', 'n', 'g', 't', 'h', ':', ' ']
      ('C' :: 'o' :: 'n' :: 't' :: 'e' :: 'n' :: 't' :: ' ' :: 'L' :: 'e' :: 'n' :: 'g' :: 't' :: 'h' :: ':' :: ' ' :: rest) = some rest :=
  dropLiteral_append ['C', 'o', 'n', 't', 'e', 'n', 't', ' ', 'L', 'e', 'n', 'g', 't', 'h', ':', ' '] rest

theorem dropLit5 (rest : List Char) :
    dropLiteral ['E', 'x', 't', 'r', 'a', 'c', 't', 'i', 'o', 'n', ' ', 'M', 'e', 't', 'h', 'o', 'd', ':', ' ']
      ('E' :: 'x' :: 't' :: 'r' :: 'a' :: 'c' :: 't' :: 'i' :: 'o' :: 'n' :: ' ' :: 'M' :: 'e' :: 't' :: 'h' :: 'o' :: 'd' :: ':' :: ' ' :: rest) = some rest :=
  dropLiteral_append ['E', 'x', 't', 'r', 'a', 'c', 't', 'i', 'o', 'n', ' ', 'M', 'e', 't', 'h', 'o', 'd', ':', ' '] rest

theorem dropLit6 (rest : List Char) :
    dropLiteral ['=', '=', '=', ' ', 'T', 'e', 'x', 't', ' ', 'C', 'o', 'n', 't', 'e', 'n', 't', ' ', '=', '=', '=', '\n', '\n']
      ('=' :: '=' :: '=' :: ' ' :: 'T' :: 'e' :: 'x' :: 't' :: ' ' :: 'C' :: 'o' :: 'n' :: 't' :: 'e' :: 'n' :: 't' :: ' ' :: '=' :: '=' :: '=' :: '\n' :: '\n' :: rest) = some rest :=
  dropLiteral_append ['=', '=', '=', ' ', 'T', 'e', 'x', 't', ' ', 'C', 'o', 'n', 't', 'e', 'n', 't', ' ', '=', '=', '=', '\n', '\n'] rest

theorem takeLine_chars_line (ds rest : List Char) (h : '\n' ∉ ds) :
    takeLine (ds ++ (' ' :: 'c' :: 'h' :: 'a' :: 'r' :: 'a' :: 'c' :: 't' :: 'e' :: 'r' :: 's' :: '\n' :: rest))
      = some (ds ++ [' ', 'c', 'h', 'a', 'r', 'a', 'c', 't', 'e', 'r', 's'], rest) := by
  rw [show ds ++ (' ' :: 'c' :: 'h' :: 'a' :: 'r' :: 'a' :: 'c' :: 't' :: 'e' :: 'r' :: 's' :: '\n' :: rest)
      = (ds ++ [' ', 'c', 'h', 'a', 'r', 'a', 'c', 't', 'e', 'r', 's']) ++ '\n' :: rest from by simp]
  refine takeLine_append _ rest ?_
  intro hmem
  rcases List.mem_append.mp hmem with h1 | h2
  · exact absurd h1 h
  · exact absurd h2 (by decide)

theorem stripSuffix_chars (ds : List Char) :
    stripSuffix [' ', 'c', 'h', 'a', 'r', 'a', 'c', 't', 'e', 'r', 's'] (ds ++ [' ', 'c', 'h', 'a', 'r', 'a', 'c', 't', 'e', 'r', 's']) = some ds :=
  stripSuffix_append [' ', 'c', 'h', 'a', 'r', 'a', 'c', 't', 'e', 'r', 's'] ds

/-- C8 (amended): for every successful `PipelineResult` whose url and method
contain no newline character, formatting the result into the report and
parsing the header back recovers the url, the method, the pages-processed
and content-length values exactly, and the content section equals the raw
extracted text. -/
theorem c8_roundtrip_amended (md : Metadata) (t : String)
    (hu : '\n' ∉ md.url.data) (hm : '\n' ∉ md.method.data) :
    parseReport (formatHeader md ++ t)
      = some ⟨md.url, md.pages_processed, md.content_length, md.method, t⟩ := by
  have hdig1 : ∀ c ∈ natDigits md.pages_processed, c.isDigit = true := natDigits_all_digit _
  have hdig2 : ∀ c ∈ natDigits md.content_length, c.isDigit = true := natDigits_all_digit _
  have hnd1 : '\n' ∉ natDigits md.pages_processed := fun hmem =>
    absurd (hdig1 '\n' hmem) (by decide)
  have hnd2 : '\n' ∉ natDigits md.content_length := fun hmem =>
    absurd (hdig2 '\n' hmem) (by decide)
  simp only [parseReport, formatHeader, String.data_append, natDecimal_data,
    List.append_assoc, List.cons_append]
  simp only [List.nil_append]
  simp only [dropLit1, dropLit2, dropLit3, dropLit5, dropLit6, takeLine_append,
    takeLine_chars_line, stripSuffix_chars, decToNat_natDigits, hu, hm, hnd1, hnd2,
    List.nil_append, not_false_eq_true]

/-- Witness for C8 (amended) at a concrete successful result. -/
theorem c8_roundtrip_amended_witness :
    parseReport (formatHeader ⟨"http://a", "pdfplumber", 1, 22⟩ ++ "hello")
      = some ⟨"http://a", 1, 22, "pdfplumber", "hello"⟩ :=
  c8_roundtrip_amended ⟨"http://a", "pdfplumber", 1, 22⟩ "hello" (by decide) (by decide)

end Tools
